import Mathlib

/-!
Verification of the configuration adapters of the cobrautil library.

The definitions below are shallow embeddings of the Go sources:
string-valued flags become a `Flag` structure, the process environment
becomes a function `String → Option String`, and run functions become
pure functions returning their error value.  External collaborators
(the TLS credential loader, the serve loops, the isatty probe, the
maxprocs setter) are modelled as explicit oracle parameters so that the
library's own decision logic stays exactly as written in the source.
-/

namespace Cobrautil

/-! ## Go string helpers

`goToUpper`, `goToLower` embed `strings.ToUpper`/`strings.ToLower`
(character-wise case mapping); `goReplaceDash` embeds
`strings.ReplaceAll(s, "-", "_")`, which for a one-character pattern is a
character-wise substitution. -/

def goToUpper (s : String) : String :=
  ⟨s.data.map Char.toUpper⟩

def goToLower (s : String) : String :=
  ⟨s.data.map Char.toLower⟩

def goReplaceDash (s : String) : String :=
  ⟨s.data.map fun c => if c = '-' then '_' else c⟩

/-! ## Environment-to-flag synchronization (SyncViperPreRunE)

From the cited source: the returned closure first rewrites the prefix by
`strings.ReplaceAll(strings.ToUpper(prefix), "-", "_")`; then, for every
flag, it computes `suffix := strings.ToUpper(strings.ReplaceAll(f.Name,
"-", "_"))`, binds the environment variable `prefix + "_" + suffix`
(with `AllowEmptyEnv(true)`, so a set-but-empty variable counts as set),
and, when the flag is not `Changed` and the variable is set, assigns the
variable's value to the flag (`pflag.FlagSet.Set` also marks the flag as
changed). -/

structure Flag where
  name : String
  value : String
  changed : Bool
deriving DecidableEq, Repr

/-- The environment-variable name consulted for a flag, as computed by
`SyncViperPreRunE`: the transformed prefix joined to the transformed
flag name by an underscore. -/
def syncEnvKey (pfx flagName : String) : String :=
  goReplaceDash (goToUpper pfx) ++ "_" ++ goToUpper (goReplaceDash flagName)

/-- The body of the `VisitAll` closure of `SyncViperPreRunE`, acting on
one flag given the process environment. -/
def syncFlag (pfx : String) (env : String → Option String) (f : Flag) : Flag :=
  if f.changed = false ∧ (env (syncEnvKey pfx f.name)).isSome then
    { f with value := (env (syncEnvKey pfx f.name)).getD "", changed := true }
  else
    f

/-- `IsBuiltinCommand`: hard-coded list of cobra's out-of-the-box
commands, compared against the command's `Use` string. -/
def isBuiltinCommand (use : String) : Bool :=
  use ∈ ["help [command]", "completion [command]"]

/-- `SyncViperPreRunE`'s returned run function: a no-op for builtin
commands, otherwise the per-flag synchronization over all flags. -/
def syncViperPreRunE (pfx : String) (env : String → Option String)
    (cmdUse : String) (flags : List Flag) : List Flag × Option String :=
  if isBuiltinCommand cmdUse then (flags, none)
  else (flags.map (syncFlag pfx env), none)

/-- The claim's environment-variable name formula, followed verbatim
from the spec sentence: `UPPER(p) + "_" + UPPER(replace(f,"-","_"))`
(the prefix only upper-cased, hyphens kept).  Used solely to compare the
spec's formula against the one computed by the source. -/
def specEnvVarName (p f : String) : String :=
  goToUpper p ++ "_" ++ goToUpper (goReplaceDash f)

/-- Concrete environment used as the C3 counterexample: the variable
named by the claim's formula for prefix "my-app" and flag "addr" is set. -/
def claimEnvEx : String → Option String :=
  fun k => if k = "MY-APP_ADDR" then some "10.0.0.1" else none

/-- Concrete environment for witnesses: `MY_APP_ADDR` is set. -/
def envEx : String → Option String :=
  fun k => if k = "MY_APP_ADDR" then some "10.0.0.1" else none

/-- Concrete unchanged flag used in witnesses. -/
def flagEx : Flag :=
  { name := "addr", value := ":8443", changed := false }

/-- Concrete user-changed flag used in witnesses. -/
def changedFlagEx : Flag :=
  { name := "addr", value := ":9999", changed := true }

/-! ## gRPC server construction (grpc.CobraUtil.ServerFromFlags)

The function reads the expanded `$PREFIX-tls-cert-path` and
`$PREFIX-tls-key-path` flag values and switches on them: both empty
yields a plaintext server, both set loads TLS credentials from the two
files (an external call modelled by the `credsResult` oracle: `none`
means loading succeeded) and yields an encrypted server, and otherwise
it returns the error naming both flags.  The keepalive option appended
beforehand does not influence this switch and is not modelled. -/

inductive GrpcServer where
  | plaintext
  | encrypted (certPath keyPath : String)
deriving DecidableEq, Repr

/-- The error message built in the `default` case of the switch in
`ServerFromFlags`. -/
def grpcTLSFlagsError (flagPrefix : String) : String :=
  "failed to start gRPC server: must provide both --" ++ flagPrefix ++
    "-tls-cert-path and --" ++ flagPrefix ++ "-tls-key-path"

def serverFromFlags (flagPrefix certPath keyPath : String)
    (credsResult : Option String) : Except String GrpcServer :=
  if certPath = "" ∧ keyPath = "" then
    Except.ok GrpcServer.plaintext
  else if certPath ≠ "" ∧ keyPath ≠ "" then
    match credsResult with
    | some e => Except.error e
    | none => Except.ok (GrpcServer.encrypted certPath keyPath)
  else
    Except.error (grpcTLSFlagsError flagPrefix)

/-! ## HTTP listen (HTTPListenFromFlags / cobrahttp Builder.ListenFromFlags)

The function returns nil when the `$PREFIX-enabled` flag is false;
otherwise it switches on the two TLS path flags exactly like the gRPC
constructor, serving plaintext, serving TLS with the two files, or
returning the error naming both flags.  `httpListenBranch` embeds that
switch; `serveReturn` embeds the return logic wrapped around the
blocking `ListenAndServe`/`ListenAndServeTLS` call, whose outcome is an
oracle (`none` models a nil error, `some e` a returned Go error with its
`errors.Is(err, http.ErrServerClosed)` bit). -/

structure GoError where
  msg : String
  isServerClosed : Bool
deriving DecidableEq, Repr

/-- The error message built in the `default` case of the switch in the
HTTP listen functions. -/
def httpTLSFlagsError (flagPrefix : String) : String :=
  "failed to start http server: must provide both --" ++ flagPrefix ++
    "-tls-cert-path and --" ++ flagPrefix ++ "-tls-key-path"

inductive ListenBranch where
  | disabled
  | plainServe
  | tlsServe (certPath keyPath : String)
  | configError (msg : String)
deriving DecidableEq, Repr

def httpListenBranch (enabled : Bool) (certPath keyPath flagPrefix : String) :
    ListenBranch :=
  if enabled = false then ListenBranch.disabled
  else if certPath = "" ∧ keyPath = "" then ListenBranch.plainServe
  else if certPath ≠ "" ∧ keyPath ≠ "" then ListenBranch.tlsServe certPath keyPath
  else ListenBranch.configError (httpTLSFlagsError flagPrefix)

/-- Source: `if err := srv.ListenAndServe(); err != nil && errors.Is(err,
http.ErrServerClosed) { return fmt.Errorf("failed while serving %s: %w",
...) }; return nil` -- note the condition tests that the error IS the
server-closed sentinel. -/
def serveReturn (scheme : String) (result : Option GoError) : Option String :=
  match result with
  | some err =>
    if err.isServerClosed then
      some ("failed while serving " ++ scheme ++ ": " ++ err.msg)
    else
      none
  | none => none

def httpListenFromFlags (enabled : Bool) (certPath keyPath flagPrefix : String)
    (plainResult tlsResult : Option GoError) : Option String :=
  match httpListenBranch enabled certPath keyPath flagPrefix with
  | ListenBranch.disabled => none
  | ListenBranch.plainServe => serveReturn "http" plainResult
  | ListenBranch.tlsServe _ _ => serveReturn "https" tlsResult
  | ListenBranch.configError m => some m

/-- `http.ErrServerClosed` as returned by `ListenAndServe` after a
graceful `Shutdown`/`Close`. -/
def serverClosedErr : GoError :=
  { msg := "http: Server closed", isServerClosed := true }

/-- A genuine serve failure, e.g. the listener could not bind. -/
def bindFailedErr : GoError :=
  { msg := "listen tcp :8443: bind: address already in use", isServerClosed := false }

/-! ## Logging run function (ZeroLogRunE / cobrazerolog Builder.RunE)

The run function lower-cases the `$PREFIX-level` flag and switches over
the seven zerolog severities, returning `fmt.Errorf("unknown log level:
%s", level)` in the default case; the `$PREFIX-format` flag selects the
console writer when `format == "console" || format == "auto" &&
isatty.IsTerminal(os.Stdout.Fd())` and structured output otherwise. -/

inductive LogLevel where
  | trace
  | debug
  | info
  | warn
  | error
  | fatal
  | panicLevel
deriving DecidableEq, Repr

def parseLogLevel (s : String) : Except String LogLevel :=
  let level := goToLower s
  if level = "trace" then Except.ok LogLevel.trace
  else if level = "debug" then Except.ok LogLevel.debug
  else if level = "info" then Except.ok LogLevel.info
  else if level = "warn" then Except.ok LogLevel.warn
  else if level = "error" then Except.ok LogLevel.error
  else if level = "fatal" then Except.ok LogLevel.fatal
  else if level = "panic" then Except.ok LogLevel.panicLevel
  else Except.error ("unknown log level: " ++ level)

inductive LogOutput where
  | console
  | structured
deriving DecidableEq, Repr

/-- The output-encoding choice, with the isatty probe of standard
output as a boolean oracle. -/
def resolveLogFormat (format : String) (isTTY : Bool) : LogOutput :=
  if format = "console" ∨ (format = "auto" ∧ isTTY = true) then LogOutput.console
  else LogOutput.structured

/-! ## Run-function composition (CommandStack)

A Go run function takes the command and arguments and returns an error;
its side effects on shared state are modelled by explicit state passing,
so a run function becomes `σ → σ × Option ε`.  `CommandStack` loops over
the functions in order and returns the first non-nil error. -/

def commandStack {σ ε : Type} (fns : List (σ → σ × Option ε)) (s : σ) :
    σ × Option ε :=
  match fns with
  | [] => (s, none)
  | fn :: rest =>
    match fn s with
    | (s₁, some e) => (s₁, some e)
    | (s₁, none) => commandStack rest s₁

/-- A run function that increments the state and succeeds (witness input). -/
def okStep : Nat → Nat × Option Nat :=
  fun s => (s + 1, none)

/-- A run function that fails with error 7 (witness input). -/
def failStep : Nat → Nat × Option Nat :=
  fun s => (s * 10, some 7)

/-! ## Trace-propagator parsing (setTracePropagators)

The flag value is split on commas; each token maps to propagator
instances via a switch in which "w3c" falls through to the default
appending the two W3C instances (baggage then trace-context). -/

inductive Propagator where
  | b3
  | ot
  | baggage
  | traceContext
deriving DecidableEq, Repr

def propagatorsFor (tok : String) : List Propagator :=
  if tok = "b3" then [Propagator.b3]
  else if tok = "ottrace" then [Propagator.ot]
  else [Propagator.baggage, Propagator.traceContext]

def setTracePropagators (toks : List String) : List Propagator :=
  toks.flatMap propagatorsFor

/-- `strings.Split` for a one-character separator, character-wise:
splitting the empty string yields one empty field, and each separator
occurrence starts a new field. -/
def splitCharList (sep : Char) : List Char → List (List Char)
  | [] => [[]]
  | c :: cs =>
    match splitCharList sep cs with
    | [] => if c = sep then [[], []] else [[c]]
    | g :: gs => if c = sep then [] :: g :: gs else (c :: g) :: gs

def goSplitComma (s : String) : List String :=
  (splitCharList ',' s.data).map String.mk

def parseTracePropagator (s : String) : List Propagator :=
  setTracePropagators (goSplitComma s)

/-! ## CPU-limit run function (SetProcLimitRunE)

`maxprocs.Set` (go.uber.org/automaxprocs) applies the detected CPU
quota to the runtime's parallelism setting and returns an undo function
restoring the previous value; the detected quota and the call's error
are oracles.  The run function registers `defer undo()` after a
successful `Set` and then returns nil, so the deferred undo executes
before the function returns; on error it calls `logger.Fatal`, which
terminates the process. -/

structure ProcState where
  gomaxprocs : Nat
deriving DecidableEq, Repr

def maxprocsSet (quota : Nat) (s : ProcState) :
    (ProcState → ProcState) × ProcState :=
  (fun s2 => { s2 with gomaxprocs := s.gomaxprocs },
   { s with gomaxprocs := quota })

inductive RunResult where
  | fatalExit
  | returned (err : Option String)
deriving DecidableEq, Repr

def setProcLimitRunE (quota : Nat) (setErr : Option String) (s : ProcState) :
    ProcState × RunResult :=
  match setErr with
  | some _ => (s, RunResult.fatalExit)
  | none =>
    let u := maxprocsSet quota s
    (u.1 u.2, RunResult.returned none)

/-! Helper lemmas about the character maps. -/

theorem toUpper_ne_dash {c : Char} (h : c ≠ '-') : Char.toUpper c ≠ '-' := by
  show (if c.toNat ≥ 97 ∧ c.toNat ≤ 122 then Char.ofNat (c.toNat - 32) else c) ≠ '-'
  by_cases hc : c.toNat ≥ 97 ∧ c.toNat ≤ 122
  · rw [if_pos hc]
    obtain ⟨h1, h2⟩ := hc
    revert h1 h2
    generalize c.toNat = m
    intro h1 h2
    interval_cases m <;> decide
  · rw [if_neg hc]
    exact h

theorem toUpper_dash_comm (c : Char) :
    (if Char.toUpper c = '-' then '_' else Char.toUpper c) =
      Char.toUpper (if c = '-' then '_' else c) := by
  by_cases h : c = '-'
  · subst h; decide
  · simp [h, toUpper_ne_dash h]

theorem goReplaceDash_goToUpper_comm (s : String) :
    goReplaceDash (goToUpper s) = goToUpper (goReplaceDash s) := by
  unfold goReplaceDash goToUpper
  simp only [List.map_map]
  exact congrArg String.mk (List.map_congr_left fun c _ => toUpper_dash_comm c)

end Cobrautil

namespace Cobrautil

/-- C3 (corrected): the claim's formula disagrees with the source for a
prefix containing a hyphen; consequently a variable named by the claim's
formula is not picked up by the synchronizer. -/
theorem sync_env_name_counterexample :
    syncEnvKey "my-app" "addr" ≠ specEnvVarName "my-app" "addr" ∧
    (syncFlag "my-app" claimEnvEx
        { name := "addr", value := ":8443", changed := false }).value ≠ "10.0.0.1" := by
  constructor
  · decide
  · decide

/-- C3 (amended): for every flag name and prefix, the synchronizer
consults exactly the variable `UPPER(replace(p,"-","_")) ++ "_" ++
UPPER(replace(f,"-","_"))`: an unchanged flag's synchronized value is
that variable's value when set, and the flag's own value otherwise. -/
theorem sync_env_name_amended (p : String) (env : String → Option String)
    (f : Flag) (h : f.changed = false) :
    (syncFlag p env f).value =
      (env (goToUpper (goReplaceDash p) ++ "_" ++
        goToUpper (goReplaceDash f.name))).getD f.value := by
  have hkey : syncEnvKey p f.name =
      goToUpper (goReplaceDash p) ++ "_" ++ goToUpper (goReplaceDash f.name) := by
    unfold syncEnvKey
    rw [goReplaceDash_goToUpper_comm]
  unfold syncFlag
  rw [hkey] at *
  cases henv : env (goToUpper (goReplaceDash p) ++ "_" ++ goToUpper (goReplaceDash f.name)) with
  | none => simp [h, hkey, henv]
  | some s => simp [h, hkey, henv]

/-- Witness for C3's amended theorem at a concrete input. -/
theorem sync_env_name_amended_witness :
    (syncFlag "my-app" envEx flagEx).value =
      (envEx (goToUpper (goReplaceDash "my-app") ++ "_" ++
        goToUpper (goReplaceDash "addr"))).getD ":8443" :=
  sync_env_name_amended "my-app" envEx flagEx rfl

/-- C4 (confirmed): a flag the user explicitly changed is left entirely
untouched by the synchronizer, whatever the environment holds. -/
theorem sync_skips_changed_flags (p : String) (env : String → Option String)
    (f : Flag) (h : f.changed = true) :
    syncFlag p env f = f := by
  unfold syncFlag
  simp [h]

/-- Witness for C4 at a concrete input. -/
theorem sync_skips_changed_flags_witness :
    syncFlag "my-app" envEx changedFlagEx = changedFlagEx :=
  sync_skips_changed_flags "my-app" envEx changedFlagEx rfl

/-- C5 (confirmed): an unchanged flag whose derived environment variable
exists receives that variable's value. -/
theorem sync_assigns_env_value (p : String) (env : String → Option String)
    (f : Flag) (s : String) (hch : f.changed = false)
    (henv : env (syncEnvKey p f.name) = some s) :
    (syncFlag p env f).value = s := by
  unfold syncFlag
  simp [hch, henv]

/-- Witness for C5 at a concrete input. -/
theorem sync_assigns_env_value_witness :
    (syncFlag "my-app" envEx flagEx).value = "10.0.0.1" :=
  sync_assigns_env_value "my-app" envEx flagEx "10.0.0.1" rfl (by decide)

/-- C1 (confirmed): TLS policy of the server constructors.  With both
path flags empty the gRPC constructor returns a plaintext server with no
error and the HTTP listen path selects the plaintext-serve branch; with
exactly one path set both return the configuration error naming the two
`--<prefix>-tls-cert-path` / `--<prefix>-tls-key-path` flags; with both
set (and credential loading succeeding for gRPC) both construct an
encrypted server from exactly the two given files. -/
theorem server_tls_policy (p c k : String) (cr : Option String) :
    (c = "" → k = "" →
      serverFromFlags p c k cr = Except.ok GrpcServer.plaintext ∧
      httpListenBranch true c k p = ListenBranch.plainServe) ∧
    ((c = "" ∧ k ≠ "") ∨ (c ≠ "" ∧ k = "") →
      serverFromFlags p c k cr = Except.error (grpcTLSFlagsError p) ∧
      httpListenBranch true c k p = ListenBranch.configError (httpTLSFlagsError p)) ∧
    (c ≠ "" → k ≠ "" →
      serverFromFlags p c k none = Except.ok (GrpcServer.encrypted c k) ∧
      httpListenBranch true c k p = ListenBranch.tlsServe c k) := by
  refine ⟨?_, ?_, ?_⟩
  · intro hc hk
    subst hc
    subst hk
    constructor
    · simp [serverFromFlags]
    · simp [httpListenBranch]
  · intro hmix
    rcases hmix with ⟨hc, hk⟩ | ⟨hc, hk⟩
    · constructor
      · simp [serverFromFlags, hc, hk]
      · simp [httpListenBranch, hc, hk]
    · constructor
      · simp [serverFromFlags, hc, hk]
      · simp [httpListenBranch, hc, hk]
  · intro hc hk
    constructor
    · simp [serverFromFlags, hc, hk]
    · simp [httpListenBranch, hc, hk]

/-- Witness for C1: the three TLS configurations at concrete paths. -/
theorem server_tls_policy_witness :
    (serverFromFlags "grpc" "" "" none = Except.ok GrpcServer.plaintext ∧
      httpListenBranch true "" "" "grpc" = ListenBranch.plainServe) ∧
    (serverFromFlags "grpc" "cert.pem" "" none =
        Except.error (grpcTLSFlagsError "grpc") ∧
      httpListenBranch true "cert.pem" "" "grpc" =
        ListenBranch.configError (httpTLSFlagsError "grpc")) ∧
    (serverFromFlags "grpc" "cert.pem" "key.pem" none =
        Except.ok (GrpcServer.encrypted "cert.pem" "key.pem") ∧
      httpListenBranch true "cert.pem" "key.pem" "grpc" =
        ListenBranch.tlsServe "cert.pem" "key.pem") :=
  ⟨(server_tls_policy "grpc" "" "" none).1 rfl rfl,
   (server_tls_policy "grpc" "cert.pem" "" none).2.1 (Or.inr ⟨by decide, rfl⟩),
   (server_tls_policy "grpc" "cert.pem" "key.pem" none).2.2 (by decide) (by decide)⟩

/-- C2 (code bug): the HTTP listen functions test `err != nil &&
errors.Is(err, http.ErrServerClosed)`, so a graceful shutdown
(`http.ErrServerClosed`) is returned as a wrapped non-nil error, and any
other serve failure is swallowed and returned as nil -- the exact
inverse of the documented policy.  Evaluated at both failing inputs. -/
theorem http_listen_inverts_server_closed :
    httpListenFromFlags true "" "" "http" (some serverClosedErr) none =
      some "failed while serving http: http: Server closed" ∧
    httpListenFromFlags true "" "" "http" (some bindFailedErr) none = none := by
  constructor
  · rfl
  · rfl

/-- C6 (confirmed): log-level parsing succeeds exactly when the
lower-cased input is one of the seven severities; "WARN" maps to the
warn severity and "verbose" yields a returned configuration error. -/
theorem log_level_parse_spec :
    (∀ s : String,
      (∃ lvl, parseLogLevel s = Except.ok lvl) ↔
        goToLower s ∈ ["trace", "debug", "info", "warn", "error", "fatal", "panic"]) ∧
    parseLogLevel "WARN" = Except.ok LogLevel.warn ∧
    parseLogLevel "verbose" = Except.error "unknown log level: verbose" := by
  refine ⟨?_, rfl, rfl⟩
  intro s
  simp only [parseLogLevel]
  split_ifs with h1 h2 h3 h4 h5 h6 h7 <;> simp_all

/-- C7 (confirmed): log-format resolution: "console" yields
human-readable output, "json" (like every other unrecognized value)
yields structured output, and "auto" yields human-readable output
exactly when standard output is a terminal. -/
theorem log_format_resolution_spec :
    ∀ (f : String) (t : Bool),
      resolveLogFormat f t =
        if f = "console" then LogOutput.console
        else if f = "auto" then
          (if t then LogOutput.console else LogOutput.structured)
        else LogOutput.structured := by
  intro f t
  by_cases hc : f = "console"
  · simp [resolveLogFormat, hc]
  · by_cases ha : f = "auto"
    · cases t <;> simp [resolveLogFormat, hc, ha]
    · simp [resolveLogFormat, hc, ha]

/-- C8 (confirmed): the composed run function executes the functions in
declaration order, stops at the first failing function and returns its
error (the suffix after the failure never runs, so the result does not
depend on it), and returns nil when every function returns nil. -/
theorem command_stack_spec {σ ε : Type} :
    (∀ (xs ys : List (σ → σ × Option ε)) (f : σ → σ × Option ε)
        (s s₁ s₂ : σ) (e : ε),
      commandStack xs s = (s₁, none) → f s₁ = (s₂, some e) →
      commandStack (xs ++ f :: ys) s = (s₂, some e)) ∧
    (∀ (fns : List (σ → σ × Option ε)) (s : σ),
      (∀ fn ∈ fns, ∀ t, (fn t).2 = none) → (commandStack fns s).2 = none) := by
  constructor
  · intro xs
    induction xs with
    | nil =>
      intro ys f s s₁ s₂ e hxs hf
      simp only [commandStack, Prod.mk.injEq] at hxs
      obtain ⟨rfl, -⟩ := hxs
      simp only [List.nil_append, commandStack]
      rw [hf]
    | cons x xs ih =>
      intro ys f s s₁ s₂ e hxs hf
      rw [List.cons_append]
      simp only [commandStack] at hxs ⊢
      cases hx : x s with
      | mk t err =>
        rw [hx] at hxs
        cases err with
        | some e' => simp at hxs
        | none => exact ih ys f t s₁ s₂ e hxs hf
  · intro fns
    induction fns with
    | nil =>
      intro s h
      simp [commandStack]
    | cons x xs ih =>
      intro s h
      simp only [commandStack]
      cases hx : x s with
      | mk t err =>
        have herr : err = none := by
          have hh := h x (by simp) s
          rw [hx] at hh
          exact hh
        subst herr
        exact ih t fun fn hfn u => h fn (by simp [hfn]) u

/-- Witness for C8: a concrete stack short-circuits at the failing
middle step, and a concrete all-successful stack returns nil. -/
theorem command_stack_spec_witness :
    commandStack [okStep, failStep, okStep] 0 = (10, some 7) ∧
    (commandStack [okStep, okStep] 5).2 = none :=
  ⟨(@command_stack_spec Nat Nat).1 [okStep] [okStep] failStep 0 1 10 7 rfl rfl,
   (@command_stack_spec Nat Nat).2 [okStep, okStep] 5 (by
      intro fn hfn t
      simp only [List.mem_cons, List.not_mem_nil, or_false] at hfn
      rcases hfn with rfl | rfl <;> rfl)⟩

/-- C9 (confirmed): each propagator token maps to its instances ("b3"
to one b3 instance, "ottrace" to one ot-trace instance, "w3c" and any
unknown token to the baggage and trace-context pair), and the composite
for "b3,w3c" is the b3 instance followed by the w3c pair. -/
theorem trace_propagator_spec :
    (∀ tok : String, tok ≠ "b3" → tok ≠ "ottrace" →
      propagatorsFor tok = [Propagator.baggage, Propagator.traceContext]) ∧
    propagatorsFor "b3" = [Propagator.b3] ∧
    propagatorsFor "ottrace" = [Propagator.ot] ∧
    propagatorsFor "w3c" = [Propagator.baggage, Propagator.traceContext] ∧
    parseTracePropagator "b3,w3c" =
      [Propagator.b3, Propagator.baggage, Propagator.traceContext] := by
  refine ⟨?_, rfl, rfl, rfl, rfl⟩
  intro tok h1 h2
  simp [propagatorsFor, h1, h2]

/-- Witness for C9 at an unknown token. -/
theorem trace_propagator_spec_witness :
    propagatorsFor "jaeger" = [Propagator.baggage, Propagator.traceContext] ∧
    parseTracePropagator "b3,w3c" =
      [Propagator.b3, Propagator.baggage, Propagator.traceContext] :=
  ⟨trace_propagator_spec.1 "jaeger" (by decide) (by decide),
   trace_propagator_spec.2.2.2.2⟩

/-- C10 (confirmed): when applying the CPU quota succeeds, the deferred
undo runs before `SetProcLimitRunE`'s run function returns, so the
caller observes the prior parallelism value together with the nil
result. -/
theorem proc_limit_undo_reverts (quota : Nat) (s : ProcState) :
    (setProcLimitRunE quota none s).1.gomaxprocs = s.gomaxprocs ∧
    (setProcLimitRunE quota none s).2 = RunResult.returned none := by
  constructor
  · rfl
  · rfl

end Cobrautil
